import Mathlib

/-!
Verification of the AnesBGA blood-gas analysis client (frontend/src/App.tsx)
against its natural-language specification.

The client is a four-step React workflow (upload → review → input → result).
We embed:
* the request assembler of `handleAnalyze` (filtering of optional vital-sign
  and anesthesia form fields, numeric coercion via `parseFloat(v) || v`);
* the supplement-stage display predicates for the OCR result fields;
* the client state machine (`step`, `ocrResult`, `isLoading`, the handlers
  `handleFileSelect`, `handleOCR`, `handleAnalyze`, `handleReset`, and the
  review-stage reselect button), with explicit in-flight request flags so
  that late-arriving responses can be modelled;
* the backend acid-correction engine, modelled from the spec (the backend
  source is not part of the frontend tree).
-/

namespace AnesBGA

/-- A JavaScript value stored in the assembled request: either a number or
a string (the only two shapes `parseFloat(value) || value` can produce). -/
inductive JValue where
  | num (q : ℚ)
  | str (s : String)
  deriving DecidableEq, Repr

/-- JavaScript whitespace skipped by `parseFloat` (the common cases). -/
def jsWhitespace (c : Char) : Bool :=
  c == ' ' || c == '\t' || c == '\n' || c == '\r' || c == '\x0b' || c == '\x0c'

/-- Numeric value of a digit string (most significant first). -/
def digitsVal (ds : List Char) : Nat :=
  ds.foldl (fun a c => 10 * a + (c.toNat - 48)) 0

/-- Exponent part of a JS float literal: after an `e`/`E`, an optional sign
and at least one digit; anything else makes `parseFloat` ignore the
exponent marker (e.g. `parseFloat "1e"` is `1`). -/
def jsExponent (cs : List Char) : Int :=
  match cs with
  | 'e' :: r => jsExponentTail r
  | 'E' :: r => jsExponentTail r
  | _ => 0
where
  /-- Sign and digits of the exponent. -/
  jsExponentTail : List Char → Int
  | '-' :: ds => if ds.takeWhile Char.isDigit = [] then 0 else
      -(digitsVal (ds.takeWhile Char.isDigit) : Int)
  | '+' :: ds => if ds.takeWhile Char.isDigit = [] then 0 else
      (digitsVal (ds.takeWhile Char.isDigit) : Int)
  | ds => if ds.takeWhile Char.isDigit = [] then 0 else
      (digitsVal (ds.takeWhile Char.isDigit) : Int)

/-- Ten to the power n as a rational, by structural recursion (kept independent of
the `Monoid.npow` instance so that concrete inputs evaluate by `decide`). -/
def tenPow : Nat → ℚ
  | 0 => 1
  | n + 1 => 10 * tenPow n

/-- Scale a rational by `10 ^ e` for an integer `e`. -/
def scaleByTenPow (q : ℚ) : Int → ℚ
  | .ofNat n => q * tenPow n
  | .negSucc n => q / tenPow (n + 1)

/-- Model of JavaScript `parseFloat` on decimal literals (the values the
form's `<input type="number">` fields produce): leading whitespace, an
optional sign, digits with an optional fraction and exponent, trailing
garbage ignored.  `none` models `NaN`.  (The special literal `Infinity`
is outside the modelled domain.) -/
def jsParseFloat (s : String) : Option ℚ :=
  let cs := s.toList.dropWhile jsWhitespace
  let (sgn, cs) : ℚ × List Char :=
    match cs with
    | '-' :: r => (-1, r)
    | '+' :: r => (1, r)
    | r => (1, r)
  let intDigits := cs.takeWhile Char.isDigit
  let rest := cs.dropWhile Char.isDigit
  let (fracDigits, rest2) : List Char × List Char :=
    match rest with
    | '.' :: r => (r.takeWhile Char.isDigit, r.dropWhile Char.isDigit)
    | r => ([], r)
  if intDigits = [] ∧ fracDigits = [] then none
  else
    let mantissa : ℚ :=
      (digitsVal intDigits : ℚ) + (digitsVal fracDigits : ℚ) / tenPow fracDigits.length
    some (scaleByTenPow (sgn * mantissa) (jsExponent rest2))

/-- App.tsx line 102: `parseFloat(value as string) || value`.  A JS `||`
falls through on any falsy left operand, i.e. on `NaN` (parse failure)
but also on `0` and `-0`. -/
def coerceVital (v : String) : JValue :=
  match jsParseFloat v with
  | some q => if q = 0 then .str v else .num q
  | none => .str v

/-- The `vitalSigns` form state (App.tsx lines 16-23): six string fields,
initially empty. -/
structure VitalSignsForm where
  blood_pressure_systolic : String
  blood_pressure_diastolic : String
  heart_rate : String
  temperature : String
  spo2 : String
  respiratory_rate : String
  deriving DecidableEq, Repr

/-- The `anesthesia` form state (App.tsx lines 26-31): four string fields,
initially empty. -/
structure AnesthesiaForm where
  anesthesia_type : String
  intubated : String
  medications : String
  notes : String
  deriving DecidableEq, Repr

/-- Model of `Object.entries(vitalSigns)`: key/value pairs in declaration order. -/
def vitalEntries (f : VitalSignsForm) : List (String × String) :=
  [("blood_pressure_systolic", f.blood_pressure_systolic),
   ("blood_pressure_diastolic", f.blood_pressure_diastolic),
   ("heart_rate", f.heart_rate),
   ("temperature", f.temperature),
   ("spo2", f.spo2),
   ("respiratory_rate", f.respiratory_rate)]

/-- Model of `Object.entries(anesthesia)`: key/value pairs in declaration order. -/
def anesthesiaEntries (f : AnesthesiaForm) : List (String × String) :=
  [("anesthesia_type", f.anesthesia_type),
   ("intubated", f.intubated),
   ("medications", f.medications),
   ("notes", f.notes)]

/-- App.tsx lines 100-103: `validVitalSigns`, keeping only truthy (non-empty)
raw values and coercing each with `parseFloat(value) || value`. -/
def validVitalSigns (f : VitalSignsForm) : List (String × JValue) :=
  ((vitalEntries f).filter fun p => p.2 ≠ "").map fun p => (p.1, coerceVital p.2)

/-- App.tsx lines 109-112: `validAnesthesia`, keeping only truthy (non-empty)
raw values, no coercion. -/
def validAnesthesia (f : AnesthesiaForm) : List (String × String) :=
  (anesthesiaEntries f).filter fun p => p.2 ≠ ""

/-- The OCR result object as consumed by App.tsx (fields read at lines
254-299 and serialized verbatim at line 92).  Each numeric field is either
a number or absent (`null`/missing key). -/
structure OcrData where
  ph : Option ℚ := none
  pco2 : Option ℚ := none
  po2 : Option ℚ := none
  be_ecf : Option ℚ := none
  hco3_act : Option ℚ := none
  lac : Option ℚ := none
  na : Option ℚ := none
  k : Option ℚ := none
  ca : Option ℚ := none
  thbc : Option ℚ := none
  confidence : Option ℚ := none
  missing_fields : List String := []
  deriving DecidableEq, Repr

/-- The analysis request assembled by `handleAnalyze` (App.tsx lines 91-115):
the OCR result serialized verbatim, plus the weight string and the two
optional groups, each attached only when non-empty. -/
structure AnalysisRequest where
  blood_gas : OcrData
  weight : Option String
  vital_signs : Option (List (String × JValue))
  anesthesia : Option (List (String × String))
  deriving DecidableEq, Repr

/-- App.tsx lines 91-115: assemble the analysis request.  `weight` is
appended only when truthy and never numerically coerced; the vital-sign and
anesthesia groups are appended only when their filtered entry lists are
non-empty. -/
def buildRequest (o : OcrData) (w : String) (vs : VitalSignsForm)
    (an : AnesthesiaForm) : AnalysisRequest :=
  { blood_gas := o
    weight := if w = "" then none else some w
    vital_signs :=
      if validVitalSigns vs = [] then none else some (validVitalSigns vs)
    anesthesia :=
      if validAnesthesia an = [] then none else some (validAnesthesia an) }

/-- The workflow step (App.tsx line 8).  The supplement/data-entry stage is
called `input` in the source. -/
inductive Step where
  | upload
  | review
  | input
  | result
  deriving DecidableEq, Repr

/-- Opaque payload of the `/api/v1/analyze` response (`data` at App.tsx
line 123); the handlers store it without inspecting it. -/
abbrev AnalysisData := Nat

/-- The client's React state (App.tsx lines 8-37), plus two bookkeeping
flags recording whether an OCR or analysis request is in flight, so that
the asynchronous continuations of `handleOCR`/`handleAnalyze` can be
modelled as separate delivery events. -/
structure ClientState where
  step : Step
  selectedFile : Option Nat
  previewUrl : String
  ocrResult : Option OcrData
  isLoading : Bool
  error : String
  vitalSigns : VitalSignsForm
  anesthesia : AnesthesiaForm
  analysisResult : Option AnalysisData
  weight : String
  pendingOcr : Bool
  pendingAnalyze : Bool
  deriving DecidableEq, Repr

/-- The empty vital-signs form (initial state, and the value `handleReset`
restores). -/
def emptyVitals : VitalSignsForm :=
  { blood_pressure_systolic := ""
    blood_pressure_diastolic := ""
    heart_rate := ""
    temperature := ""
    spo2 := ""
    respiratory_rate := "" }

/-- The empty anesthesia form (initial state, and the value `handleReset`
restores). -/
def emptyAnesthesia : AnesthesiaForm :=
  { anesthesia_type := ""
    intubated := ""
    medications := ""
    notes := "" }

/-- The initial client state (the `useState` initializers, App.tsx
lines 8-37). -/
def initState : ClientState :=
  { step := .upload
    selectedFile := none
    previewUrl := ""
    ocrResult := none
    isLoading := false
    error := ""
    vitalSigns := emptyVitals
    anesthesia := emptyAnesthesia
    analysisResult := none
    weight := ""
    pendingOcr := false
    pendingAnalyze := false }

/-- Events acting on the client state.  User events (`fileSelect`,
`clickOcr`, `clickAnalyze`, `clickReset`, `clickReselect`, the form edits)
are available only where the corresponding control is rendered and
enabled; response events (`ocrSuccess`, `ocrFailure`, `ocrNetError`,
`analyzeResponse`, `analyzeNetError`) are the continuations of an
in-flight request and can fire whenever one is outstanding, whatever the
current step. -/
inductive Event where
  | fileSelect (f : Option Nat)
  | clickOcr
  | ocrSuccess (d : OcrData)
  | ocrFailure (msg : String)
  | ocrNetError (msg : String)
  | clickAnalyze
  | analyzeResponse (d : AnalysisData)
  | analyzeNetError (msg : String)
  | clickReset
  | clickReselect
  | editWeight (v : String)
  | editVitals (vs : VitalSignsForm)
  | editAnesthesia (an : AnesthesiaForm)
  deriving DecidableEq, Repr

/-- Model of `URL.createObjectURL` for the preview image: any non-empty
URL distinguishing the file. -/
def objectUrl (f : Nat) : String := "blob:" ++ toString f

/-- One step of the client state machine: the effect of an event on the
React state.  A disabled or unavailable event leaves the state unchanged.

* `fileSelect` (App.tsx lines 40-48): the file input is rendered only at
  `upload`; a present file sets the file, the preview URL, the step and
  clears the error.
* `clickOcr` (lines 51-61 and the button at lines 229-235): rendered at
  `review` when `previewUrl` is truthy, disabled while `isLoading`; the
  handler returns early without a file, otherwise sets loading, clears the
  error and starts the request.
* `ocrSuccess`/`ocrFailure` (lines 69-76) and `ocrNetError` (lines 77-81):
  continuation of an outstanding OCR request.  On `data.success` the
  result is stored and the step becomes `input`; on failure only the error
  is set (`data.error || 'OCR识别失败'`); `finally` clears `isLoading`.
* `clickAnalyze` (lines 85-97 and the button at lines 396-403): rendered
  at `input` when `ocrResult` is truthy, disabled while `isLoading`; the
  handler returns early without an OCR result.
* `analyzeResponse` (lines 123-125): the response is stored and the step
  becomes `result` without any success check; `analyzeNetError`
  (lines 126-127) sets the error.
* `clickReset` (lines 134-156, buttons at lines 404-409 and 623-628,
  rendered at `input` and `result`): returns to `upload` and clears every
  piece of entered data (but not `isLoading` or an in-flight request).
* `clickReselect` (lines 236-241, rendered at `review`): only
  `setStep('upload')`.
* The form edits model the controlled inputs (weight at `review`,
  vitals/anesthesia at `input`). -/
def stepFn (s : ClientState) (e : Event) : ClientState :=
  match e with
  | .fileSelect f =>
      if s.step = .upload then
        match f with
        | some file =>
            { s with selectedFile := some file, previewUrl := objectUrl file,
                     step := .review, error := "" }
        | none => s
      else s
  | .clickOcr =>
      if s.step = .review ∧ s.previewUrl ≠ "" ∧ s.isLoading = false
          ∧ s.selectedFile ≠ none then
        { s with isLoading := true, error := "", pendingOcr := true }
      else s
  | .ocrSuccess d =>
      if s.pendingOcr then
        { s with ocrResult := some d, step := .input,
                 isLoading := false, pendingOcr := false }
      else s
  | .ocrFailure msg =>
      if s.pendingOcr then
        { s with error := if msg = "" then "OCR识别失败" else msg,
                 isLoading := false, pendingOcr := false }
      else s
  | .ocrNetError msg =>
      if s.pendingOcr then
        { s with error := "网络错误：" ++ msg,
                 isLoading := false, pendingOcr := false }
      else s
  | .clickAnalyze =>
      if s.step = .input ∧ s.ocrResult ≠ none ∧ s.isLoading = false then
        { s with isLoading := true, error := "", pendingAnalyze := true }
      else s
  | .analyzeResponse d =>
      if s.pendingAnalyze then
        { s with analysisResult := some d, step := .result,
                 isLoading := false, pendingAnalyze := false }
      else s
  | .analyzeNetError msg =>
      if s.pendingAnalyze then
        { s with error := "分析失败：" ++ msg,
                 isLoading := false, pendingAnalyze := false }
      else s
  | .clickReset =>
      if s.step = .input ∨ s.step = .result then
        { s with step := .upload, selectedFile := none, previewUrl := "",
                 ocrResult := none, weight := "", vitalSigns := emptyVitals,
                 anesthesia := emptyAnesthesia, analysisResult := none,
                 error := "" }
      else s
  | .clickReselect =>
      if s.step = .review then { s with step := .upload } else s
  | .editWeight v =>
      if s.step = .review ∧ s.previewUrl ≠ "" then { s with weight := v } else s
  | .editVitals vs =>
      if s.step = .input ∧ s.ocrResult ≠ none then { s with vitalSigns := vs }
      else s
  | .editAnesthesia an =>
      if s.step = .input ∧ s.ocrResult ≠ none then { s with anesthesia := an }
      else s

/-- Run a sequence of events from a state. -/
def runTrace (s : ClientState) (es : List Event) : ClientState :=
  es.foldl stepFn s

/-- The client states reachable from the initial state. -/
inductive Reachable : ClientState → Prop where
  | init : Reachable initState
  | next {s : ClientState} (hs : Reachable s) (e : Event) : Reachable (stepFn s e)

/-- JavaScript truthiness of a numeric-or-absent field: `null`, a missing
key, `0` and `NaN` are falsy; any other number is truthy. -/
def jsTruthy (x : Option ℚ) : Bool :=
  match x with
  | some q => q ≠ 0
  | none => false

/-- App.tsx line 254: the pH tile is rendered iff `ocrResult.ph` is truthy. -/
def shownPh (o : OcrData) : Bool := jsTruthy o.ph

/-- App.tsx line 260: the PO2 tile is rendered iff `ocrResult.po2` is truthy. -/
def shownPo2 (o : OcrData) : Bool := jsTruthy o.po2

/-- App.tsx line 267: the PCO2 tile is rendered iff `ocrResult.pco2` is
truthy. -/
def shownPco2 (o : OcrData) : Bool := jsTruthy o.pco2

/-- App.tsx line 274: the BE tile is rendered iff
`ocrResult.be_ecf !== null && ocrResult.be_ecf !== undefined` — the one
field with an explicit presence check instead of truthiness. -/
def shownBeEcf (o : OcrData) : Bool := o.be_ecf ≠ none

/-- App.tsx line 285: the Na+ text is rendered iff `ocrResult.na` is truthy. -/
def shownNa (o : OcrData) : Bool := jsTruthy o.na

/-- App.tsx line 286: the K+ text is rendered iff `ocrResult.k` is truthy. -/
def shownK (o : OcrData) : Bool := jsTruthy o.k

/-- App.tsx line 287: the Ca++ text is rendered iff `ocrResult.ca` is truthy. -/
def shownCa (o : OcrData) : Bool := jsTruthy o.ca

/-- App.tsx line 290: the HCO3- text is rendered iff `ocrResult.hco3_act`
is truthy. -/
def shownHco3Act (o : OcrData) : Bool := jsTruthy o.hco3_act

/-- App.tsx line 291: the LAC text is rendered iff `ocrResult.lac` is truthy. -/
def shownLac (o : OcrData) : Bool := jsTruthy o.lac

/-- App.tsx line 293: the THbc line is rendered iff `ocrResult.thbc` is
truthy. -/
def shownThbc (o : OcrData) : Bool := jsTruthy o.thbc

/-- Modelled from the spec: the backend Correction Engine
(`backend`/`api` FastAPI code) is not part of the given source tree, so
the acid-correction computation of spec §4.3 is modelled from the spec's
words.  The 0.3 L/kg distribution-volume constant of the
deficit-replacement formula. -/
def NAHCO3_DISTRIBUTION_FACTOR : ℚ := 3 / 10

/-- Modelled from the spec: concentration of 5% NaHCO3 solution,
0.595 mmol per mL. -/
def NAHCO3_5PCT_MMOL_PER_ML : ℚ := 595 / 1000

/-- Modelled from the spec: metabolic-acidosis pH threshold (pH < 7.35). -/
def ACIDOSIS_PH_THRESHOLD : ℚ := 735 / 100

/-- Modelled from the spec: metabolic-acidosis base-excess threshold
(BE < -2 mmol/L). -/
def ACIDOSIS_BE_THRESHOLD : ℚ := -2

/-- Modelled from the spec: result of the acid-correction sub-engine —
not applicable when pH/BE do not meet the acidosis thresholds,
insufficient data when the weight is absent, otherwise the computed
NaHCO3 requirement (mmol) and 5% NaHCO3 volume (mL). -/
inductive AcidCorrection where
  | notApplicable
  | insufficientData
  | dose (nahco3_mmol : ℚ) (nahco3_5_percent_ml : ℚ)
  deriving DecidableEq, Repr

/-- Modelled from the spec: the acid-correction computation of §4.3 —
applicable when pH < 7.35 and base excess < -2 mmol/L; fails closed
(insufficient data) when the weight is absent;
`NaHCO3(mmol) = 0.3 × weight_kg × |base excess|` and
`volume(mL) = mmol / 0.595`. -/
def acidCorrection (ph : ℚ) (weight : Option ℚ) (be : ℚ) : AcidCorrection :=
  if ph < ACIDOSIS_PH_THRESHOLD ∧ be < ACIDOSIS_BE_THRESHOLD then
    match weight with
    | some w =>
        .dose (NAHCO3_DISTRIBUTION_FACTOR * w * |be|)
          (NAHCO3_DISTRIBUTION_FACTOR * w * |be| / NAHCO3_5PCT_MMOL_PER_ML)
    | none => .insufficientData
  else .notApplicable

/-- Trimming as used by the specification's phrase "non-empty after
trimming": leading and trailing whitespace removed. -/
def specTrim (s : String) : String :=
  ⟨((s.toList.dropWhile Char.isWhitespace).reverse.dropWhile
      Char.isWhitespace).reverse⟩

/-- A sample OCR payload with no recognized fields. -/
def sampleOcr : OcrData := {}

/-- A concrete state at the review step: the initial state after selecting
file `0`. -/
def reviewState : ClientState := stepFn initState (.fileSelect (some 0))

/-- A concrete state with an OCR request in flight. -/
def loadingState : ClientState :=
  runTrace initState [.fileSelect (some 0), .clickOcr]

/-- A concrete state at the supplement (`input`) step. -/
def inputState : ClientState :=
  runTrace initState [.fileSelect (some 0), .clickOcr, .ocrSuccess sampleOcr]

/-- An event sequence in which the user resets while the analysis request
is in flight and the response arrives afterwards. -/
def staleAnalysisTrace : List Event :=
  [.fileSelect (some 0), .clickOcr, .ocrSuccess sampleOcr, .clickAnalyze,
   .clickReset, .analyzeResponse 7]

/-- The transition relation asserted by the specification's state-machine
sentence: `upload→review` on file selection, `review→supplement` on an OCR
response reporting success, `supplement→result` on a successful analysis
response, and back to `upload` only via the explicit reset action.  (This
formalizes the claim's wording; the code is compared against it.) -/
def specTransition (s s' : ClientState) (e : Event) : Prop :=
  (s.step = .upload ∧ s'.step = .review ∧ ∃ f, e = .fileSelect (some f))
  ∨ (s.step = .review ∧ s'.step = .input ∧ ∃ d, e = .ocrSuccess d)
  ∨ (s.step = .input ∧ s'.step = .result ∧ ∃ d, e = .analyzeResponse d)
  ∨ (s'.step = .upload ∧ e = .clickReset)

/-- The assembler contract asserted by the specification: a vital-sign
field is included iff its raw value is non-empty after trimming, and a raw
value that parses to a number is included as that number.  (This
formalizes the claim's wording; the code is compared against it.) -/
def specAssemblerContract : Prop :=
  ∀ (vs : VitalSignsForm) (k v : String), (k, v) ∈ vitalEntries vs →
    (((∃ u, (k, u) ∈ validVitalSigns vs) ↔ specTrim v ≠ "") ∧
     (∀ q : ℚ, jsParseFloat v = some q → specTrim v ≠ "" →
       (k, .num q) ∈ validVitalSigns vs))

/-- Each-field classification asserted by the specification: an extracted
value of exactly `0` is treated as present in the supplement-stage display
for every blood-gas field.  (This formalizes the claim's wording; the code
is compared against it.) -/
def specZeroIsPresent : Prop :=
  ∀ o : OcrData,
    (o.ph = some 0 → shownPh o = true) ∧
    (o.po2 = some 0 → shownPo2 o = true) ∧
    (o.pco2 = some 0 → shownPco2 o = true) ∧
    (o.be_ecf = some 0 → shownBeEcf o = true) ∧
    (o.na = some 0 → shownNa o = true) ∧
    (o.k = some 0 → shownK o = true) ∧
    (o.ca = some 0 → shownCa o = true) ∧
    (o.hco3_act = some 0 → shownHco3Act o = true) ∧
    (o.lac = some 0 → shownLac o = true) ∧
    (o.thbc = some 0 → shownThbc o = true)

section RatEval

/- The arithmetic of `Rat` is `@[irreducible]` in Batteries; concrete
rational computations below are checked by `decide`, which needs the
definitions unfolded. -/
attribute [local semireducible] Rat.mul Rat.add Rat.sub Rat.inv

/-- A network-error message is never the empty string. -/
theorem netError_msg_ne_empty (msg : String) : ("网络错误：" ++ msg) ≠ "" := by
  intro h
  have h2 := congrArg String.length h
  simp [String.length_append] at h2
  exact absurd h2.1 (by decide)

/-- The key of an entry determines its raw value: the six vital-sign keys
are pairwise distinct. -/
theorem vitalEntries_key_inj (vs : VitalSignsForm) (k v w : String)
    (h1 : (k, v) ∈ vitalEntries vs) (h2 : (k, w) ∈ vitalEntries vs) : v = w := by
  simp only [vitalEntries, List.mem_cons, List.not_mem_nil, or_false,
    Prod.mk.injEq] at h1 h2
  rcases h1 with ⟨hk1, hv1⟩ | ⟨hk1, hv1⟩ | ⟨hk1, hv1⟩ | ⟨hk1, hv1⟩ | ⟨hk1, hv1⟩ | ⟨hk1, hv1⟩ <;>
    rcases h2 with ⟨hk2, hv2⟩ | ⟨hk2, hv2⟩ | ⟨hk2, hv2⟩ | ⟨hk2, hv2⟩ | ⟨hk2, hv2⟩ | ⟨hk2, hv2⟩ <;>
      subst hk1 <;> simp_all

/-- The key of an entry determines its raw value: the four anesthesia keys
are pairwise distinct. -/
theorem anesthesiaEntries_key_inj (an : AnesthesiaForm) (k v w : String)
    (h1 : (k, v) ∈ anesthesiaEntries an) (h2 : (k, w) ∈ anesthesiaEntries an) :
    v = w := by
  simp only [anesthesiaEntries, List.mem_cons, List.not_mem_nil, or_false,
    Prod.mk.injEq] at h1 h2
  rcases h1 with ⟨hk1, hv1⟩ | ⟨hk1, hv1⟩ | ⟨hk1, hv1⟩ | ⟨hk1, hv1⟩ <;>
    rcases h2 with ⟨hk2, hv2⟩ | ⟨hk2, hv2⟩ | ⟨hk2, hv2⟩ | ⟨hk2, hv2⟩ <;>
      subst hk1 <;> simp_all

/-- C1: for every weight w > 0 and base excess b < -2 (with pH below the
acidosis threshold so that the correction is computed at all), the
acid-correction computation returns NaHCO3(mmol) = 0.3 × w × |b| and a 5%
NaHCO3 volume of NaHCO3(mmol) / 0.595; repeated calls with identical
inputs return identical results (the computation is a pure function). -/
theorem acid_correction_formula (w be ph : ℚ) (_hw : 0 < w) (hbe : be < -2)
    (hph : ph < 735 / 100) :
    (acidCorrection ph (some w) be =
      .dose (3 / 10 * w * |be|) (3 / 10 * w * |be| / (595 / 1000))) ∧
    acidCorrection ph (some w) be = acidCorrection ph (some w) be := by
  refine ⟨?_, rfl⟩
  have hcond : ph < ACIDOSIS_PH_THRESHOLD ∧ be < ACIDOSIS_BE_THRESHOLD := by
    refine ⟨by norm_num [ACIDOSIS_PH_THRESHOLD]; linarith, ?_⟩
    norm_num [ACIDOSIS_BE_THRESHOLD]; linarith
  simp [acidCorrection, hcond, NAHCO3_DISTRIBUTION_FACTOR,
    NAHCO3_5PCT_MMOL_PER_ML]

/-- Witness for C1 at the spec's own scenario (pH 7.20, BE −10,
weight 70 kg). -/
theorem acid_correction_formula_witness :
    (0 : ℚ) < 70 ∧ (-10 : ℚ) < -2 ∧ (72 : ℚ) / 10 < 735 / 100 ∧
    acidCorrection (72 / 10) (some 70) (-10) =
      .dose (3 / 10 * 70 * |(-10 : ℚ)|)
        (3 / 10 * 70 * |(-10 : ℚ)| / (595 / 1000)) :=
  ⟨by norm_num, by norm_num, by norm_num,
    (acid_correction_formula 70 (-10) (72 / 10) (by norm_num) (by norm_num)
      (by norm_num)).1⟩

/-- The spec's scenario evaluates to 210 mmol and 6000/17 ≈ 352.9 mL. -/
theorem acid_correction_scenario :
    acidCorrection (72 / 10) (some 70) (-10) = .dose 210 (6000 / 17) := by
  decide

/-- C2: a form whose vital-sign and anesthesia fields are all empty
strings produces an analysis request with no vital-signs sub-object and no
anesthesia sub-object attached. -/
theorem empty_optional_forms_attach_nothing (o : OcrData) (w : String)
    (vs : VitalSignsForm) (an : AnesthesiaForm)
    (h1 : vs.blood_pressure_systolic = "") (h2 : vs.blood_pressure_diastolic = "")
    (h3 : vs.heart_rate = "") (h4 : vs.temperature = "") (h5 : vs.spo2 = "")
    (h6 : vs.respiratory_rate = "")
    (h7 : an.anesthesia_type = "") (h8 : an.intubated = "")
    (h9 : an.medications = "") (h10 : an.notes = "") :
    (buildRequest o w vs an).vital_signs = none ∧
    (buildRequest o w vs an).anesthesia = none := by
  have hv : validVitalSigns vs = [] := by
    simp [validVitalSigns, vitalEntries, h1, h2, h3, h4, h5, h6]
  have ha : validAnesthesia an = [] := by
    simp [validAnesthesia, anesthesiaEntries, h7, h8, h9, h10]
  simp [buildRequest, hv, ha]

/-- Witness for C2 at the all-empty forms. -/
theorem empty_optional_forms_attach_nothing_witness :
    (buildRequest sampleOcr "" emptyVitals emptyAnesthesia).vital_signs = none ∧
    (buildRequest sampleOcr "" emptyVitals emptyAnesthesia).anesthesia = none :=
  empty_optional_forms_attach_nothing sampleOcr "" emptyVitals emptyAnesthesia
    rfl rfl rfl rfl rfl rfl rfl rfl rfl rfl

/-- C6: when an outstanding OCR request ends in a failure response or a
network error, the step is unchanged, the stored OCR result is unchanged,
and a non-empty (human-readable) error message is surfaced. -/
theorem ocr_failure_preserves_step (s : ClientState) (msg : String)
    (h : s.pendingOcr = true) :
    ((stepFn s (.ocrFailure msg)).step = s.step ∧
     (stepFn s (.ocrFailure msg)).ocrResult = s.ocrResult ∧
     (stepFn s (.ocrFailure msg)).error ≠ "") ∧
    ((stepFn s (.ocrNetError msg)).step = s.step ∧
     (stepFn s (.ocrNetError msg)).ocrResult = s.ocrResult ∧
     (stepFn s (.ocrNetError msg)).error ≠ "") := by
  constructor
  · refine ⟨by simp [stepFn, h], by simp [stepFn, h], ?_⟩
    simp only [stepFn, h, if_true]
    by_cases hm : msg = "" <;> simp [stepFn, hm]
  · refine ⟨by simp [stepFn, h], by simp [stepFn, h], ?_⟩
    simp [stepFn, h, netError_msg_ne_empty]

/-- Witness for C6 at a concrete in-flight state and failure message. -/
theorem ocr_failure_preserves_step_witness :
    loadingState.pendingOcr = true ∧
    ((stepFn loadingState (.ocrFailure "bad image")).step = loadingState.step ∧
     (stepFn loadingState (.ocrFailure "bad image")).ocrResult = loadingState.ocrResult ∧
     (stepFn loadingState (.ocrFailure "bad image")).error ≠ "") :=
  ⟨by decide, (ocr_failure_preserves_step loadingState "bad image" (by decide)).1⟩

/-- C7 (code bug): the client has no cancellation of in-flight requests.
After selecting a file, running OCR, starting the analysis and then
resetting while the analysis request is in flight, the reset does take
effect (the state returns to `upload` with no stored result), but the
stale analysis response arriving afterwards is stored and the result
screen is shown — it is not discarded as the specification requires. -/
theorem stale_response_after_reset_is_rendered :
    (runTrace initState (staleAnalysisTrace.take 5)).step = .upload ∧
    (runTrace initState (staleAnalysisTrace.take 5)).analysisResult = none ∧
    (runTrace initState staleAnalysisTrace).step = .result ∧
    (runTrace initState staleAnalysisTrace).analysisResult = some 7 := by
  decide

/-- C8: while a request is outstanding (`isLoading` is set), the OCR and
analysis buttons are disabled, so neither a second OCR call nor an
analysis call can be initiated — the click events leave the state
unchanged. -/
theorem loading_disables_resubmission (s : ClientState)
    (h : s.isLoading = true) :
    stepFn s .clickOcr = s ∧ stepFn s .clickAnalyze = s := by
  constructor <;> simp [stepFn, h]

/-- Witness for C8 at a concrete loading state. -/
theorem loading_disables_resubmission_witness :
    loadingState.isLoading = true ∧
    stepFn loadingState .clickOcr = loadingState ∧
    stepFn loadingState .clickAnalyze = loadingState :=
  ⟨by decide, loading_disables_resubmission loadingState (by decide)⟩

/-- C10: the review-stage reselect button changes only the step (back to
`upload`) and leaves the selected file, preview URL, weight, vital-sign
fields, anesthesia fields, OCR result and analysis result untouched,
whereas the full reset clears every one of them. -/
theorem reselect_changes_only_step (s : ClientState) :
    (s.step = .review → stepFn s .clickReselect = { s with step := .upload }) ∧
    ((s.step = .input ∨ s.step = .result) →
      ((stepFn s .clickReset).step = .upload ∧
       (stepFn s .clickReset).selectedFile = none ∧
       (stepFn s .clickReset).previewUrl = "" ∧
       (stepFn s .clickReset).ocrResult = none ∧
       (stepFn s .clickReset).weight = "" ∧
       (stepFn s .clickReset).vitalSigns = emptyVitals ∧
       (stepFn s .clickReset).anesthesia = emptyAnesthesia ∧
       (stepFn s .clickReset).analysisResult = none ∧
       (stepFn s .clickReset).error = "")) := by
  constructor
  · intro h
    simp [stepFn, h]
  · intro h
    rcases h with h | h <;> simp [stepFn, h]

/-- Witness for C10 at a concrete review state and a concrete supplement
state. -/
theorem reselect_changes_only_step_witness :
    stepFn reviewState .clickReselect = { reviewState with step := .upload } ∧
    (stepFn inputState .clickReset).ocrResult = none :=
  ⟨(reselect_changes_only_step reviewState).1 (by decide),
   ((reselect_changes_only_step inputState).2 (Or.inl (by decide))).2.2.2.1⟩

/-- C3 counterexample: the assembler does not follow the claimed contract.
With heart rate `"0"`, `parseFloat` succeeds with the value 0, yet the
field is included as the string `"0"` (the JS fallback `parseFloat(v) || v`
also fires on a parsed 0, which is falsy); and a whitespace-only value,
which is empty after trimming, is still included, because the code tests
truthiness of the raw string and never trims. -/
theorem assembler_contract_cex :
    ¬ specAssemblerContract ∧
    specTrim " " = "" ∧
    (JValue.str " ") ∈
      ((validVitalSigns { emptyVitals with temperature := " " }).map Prod.snd) := by
  refine ⟨?_, by decide, by decide⟩
  intro h
  have h2 := (h { emptyVitals with heart_rate := "0" } "heart_rate" "0"
      (by decide)).2 0 (by decide) (by decide)
  exact absurd h2 (by decide)

/-- C3 amended: an optional form field is included in the assembled
request iff its raw value is a non-empty string (truthiness — no trimming,
so whitespace-only values are included); an included vital-sign field
carries `coerceVital v`, i.e. the parsed number when `parseFloat`
succeeds with a non-zero value, and the original string when parsing
fails or parses to 0 (so `"0"` is included as the string `"0"`); an
included anesthesia field carries the raw string unchanged. -/
theorem assembler_truthy_inclusion (vs : VitalSignsForm) (an : AnesthesiaForm)
    (k v : String) :
    ((k, v) ∈ vitalEntries vs →
      ((v ≠ "" → (k, coerceVital v) ∈ validVitalSigns vs) ∧
       (∀ u, (k, u) ∈ validVitalSigns vs → v ≠ "" ∧ u = coerceVital v))) ∧
    ((k, v) ∈ anesthesiaEntries an →
      ((v ≠ "" → (k, v) ∈ validAnesthesia an) ∧
       (∀ u, (k, u) ∈ validAnesthesia an → v ≠ "" ∧ u = v))) := by
  constructor
  · intro hm
    constructor
    · intro hv
      exact List.mem_map_of_mem _ (List.mem_filter.mpr ⟨hm, by simpa using hv⟩)
    · intro u hu
      rcases List.mem_map.mp hu with ⟨⟨pk, pv⟩, hp, hpe⟩
      rcases List.mem_filter.mp hp with ⟨hpm, hpne⟩
      simp only [Prod.mk.injEq] at hpe
      obtain ⟨hk, hu2⟩ := hpe
      subst hk
      have hpv : pv = v := vitalEntries_key_inj vs pk pv v hpm hm
      subst hpv
      exact ⟨by simpa using hpne, hu2.symm⟩
  · intro hm
    constructor
    · intro hv
      exact List.mem_filter.mpr ⟨hm, by simpa using hv⟩
    · intro u hu
      rcases List.mem_filter.mp hu with ⟨hpm, hpne⟩
      have hu2 : u = v := anesthesiaEntries_key_inj an k u v hpm hm
      subst hu2
      exact ⟨by simpa using hpne, rfl⟩

/-- Witness for C3 (amended) at concrete filled fields. -/
theorem assembler_truthy_inclusion_witness :
    ("heart_rate", coerceVital "0") ∈
      validVitalSigns { emptyVitals with heart_rate := "0" } ∧
    ("medications", "fentanyl") ∈
      validAnesthesia { emptyAnesthesia with medications := "fentanyl" } :=
  ⟨((assembler_truthy_inclusion { emptyVitals with heart_rate := "0" }
      emptyAnesthesia "heart_rate" "0").1 (by decide)).1 (by decide),
   ((assembler_truthy_inclusion emptyVitals
      { emptyAnesthesia with medications := "fentanyl" } "medications"
      "fentanyl").2 (by decide)).1 (by decide)⟩

/-- C4 counterexample: the review-stage reselect button changes the step
(review → upload) but is not the reset action, so the step variable
changes along a transition outside the claimed list. -/
theorem spec_transition_cex :
    (stepFn reviewState .clickReselect).step ≠ reviewState.step ∧
    ¬ specTransition reviewState (stepFn reviewState .clickReselect)
        .clickReselect := by
  refine ⟨by decide, ?_⟩
  intro h
  rcases h with ⟨h1, -, -⟩ | ⟨-, h2, -⟩ | ⟨h1, -, -⟩ | ⟨-, h2⟩
  · exact absurd h1 (by decide)
  · exact absurd h2 (by decide)
  · exact absurd h1 (by decide)
  · exact absurd h2 (by decide)

/-- C4 amended: the step variable changes only along: upload→review on
file selection; →input exactly when a success OCR response is delivered
for an outstanding request (from review normally, or from upload if the
user navigated back while it was in flight); →result exactly when any
analysis response is delivered for an outstanding request — the client
performs no success check on the analysis payload, and a reset may have
intervened; and →upload via the explicit reset button or the review-stage
reselect button. -/
theorem step_transitions_amended (s : ClientState) (e : Event)
    (h : (stepFn s e).step ≠ s.step) :
    (s.step = .upload ∧ (stepFn s e).step = .review ∧
      ∃ f, e = .fileSelect (some f))
    ∨ ((stepFn s e).step = .input ∧ s.pendingOcr = true ∧
      ∃ d, e = .ocrSuccess d)
    ∨ ((stepFn s e).step = .result ∧ s.pendingAnalyze = true ∧
      ∃ d, e = .analyzeResponse d)
    ∨ ((stepFn s e).step = .upload ∧ (e = .clickReset ∨ e = .clickReselect)) := by
  cases e with
  | fileSelect f =>
      cases f with
      | some file =>
          by_cases hc : s.step = .upload
          · exact Or.inl ⟨hc, by simp [stepFn, hc], ⟨file, rfl⟩⟩
          · exact absurd (by simp [stepFn, hc]) h
      | none => exact absurd (by simp [stepFn]) h
  | clickOcr =>
      refine absurd ?_ h
      simp only [stepFn]
      split <;> rfl
  | ocrSuccess d =>
      by_cases hp : s.pendingOcr = true
      · exact Or.inr (Or.inl ⟨by simp [stepFn, hp], hp, ⟨d, rfl⟩⟩)
      · exact absurd (by simp [stepFn, hp]) h
  | ocrFailure msg =>
      refine absurd ?_ h
      simp only [stepFn]
      split <;> rfl
  | ocrNetError msg =>
      refine absurd ?_ h
      simp only [stepFn]
      split <;> rfl
  | clickAnalyze =>
      refine absurd ?_ h
      simp only [stepFn]
      split <;> rfl
  | analyzeResponse d =>
      by_cases hp : s.pendingAnalyze = true
      · exact Or.inr (Or.inr (Or.inl ⟨by simp [stepFn, hp], hp, ⟨d, rfl⟩⟩))
      · exact absurd (by simp [stepFn, hp]) h
  | analyzeNetError msg =>
      refine absurd ?_ h
      simp only [stepFn]
      split <;> rfl
  | clickReset =>
      by_cases hc : s.step = .input ∨ s.step = .result
      · exact Or.inr (Or.inr (Or.inr ⟨by simp [stepFn, hc], Or.inl rfl⟩))
      · exact absurd (by simp [stepFn, hc]) h
  | clickReselect =>
      by_cases hc : s.step = .review
      · exact Or.inr (Or.inr (Or.inr ⟨by simp [stepFn, hc], Or.inr rfl⟩))
      · exact absurd (by simp [stepFn, hc]) h
  | editWeight v =>
      refine absurd ?_ h
      simp only [stepFn]
      split <;> rfl
  | editVitals vs =>
      refine absurd ?_ h
      simp only [stepFn]
      split <;> rfl
  | editAnesthesia an =>
      refine absurd ?_ h
      simp only [stepFn]
      split <;> rfl

/-- Witness for C4 (amended) at the initial file selection. -/
theorem step_transitions_amended_witness :
    (stepFn initState (.fileSelect (some 0))).step ≠ initState.step ∧
    ((initState.step = .upload ∧
        (stepFn initState (.fileSelect (some 0))).step = .review ∧
        ∃ f, (Event.fileSelect (some 0)) = .fileSelect (some f))
      ∨ ((stepFn initState (.fileSelect (some 0))).step = .input ∧
          initState.pendingOcr = true ∧
          ∃ d, (Event.fileSelect (some 0)) = .ocrSuccess d)
      ∨ ((stepFn initState (.fileSelect (some 0))).step = .result ∧
          initState.pendingAnalyze = true ∧
          ∃ d, (Event.fileSelect (some 0)) = .analyzeResponse d)
      ∨ ((stepFn initState (.fileSelect (some 0))).step = .upload ∧
          ((Event.fileSelect (some 0)) = .clickReset ∨
           (Event.fileSelect (some 0)) = .clickReselect))) :=
  ⟨by decide, step_transitions_amended initState (.fileSelect (some 0)) (by decide)⟩

/-- In every reachable state, being at the supplement (`input`) step
implies a stored OCR result. -/
theorem reachable_input_ocr (s : ClientState) (hr : Reachable s) :
    s.step = .input → s.ocrResult ≠ none := by
  induction hr with
  | init => intro h; exact absurd h (by decide)
  | @next s0 hs e IH =>
      cases e with
      | fileSelect f =>
          cases f with
          | some file =>
              by_cases hc : s0.step = .upload
              · simp [stepFn, hc]
              · simpa [stepFn, hc] using IH
          | none => simpa [stepFn] using IH
      | clickOcr =>
          by_cases hc : s0.step = .review ∧ s0.previewUrl ≠ "" ∧
              s0.isLoading = false ∧ s0.selectedFile ≠ none
          · simp only [stepFn, if_pos hc]
            simpa using IH
          · simpa [stepFn, if_neg hc] using IH
      | ocrSuccess d =>
          by_cases hp : s0.pendingOcr = true
          · simp [stepFn, hp]
          · simpa [stepFn, hp] using IH
      | ocrFailure msg =>
          by_cases hp : s0.pendingOcr = true
          · simp only [stepFn, hp, if_true]
            simpa using IH
          · simpa [stepFn, hp] using IH
      | ocrNetError msg =>
          by_cases hp : s0.pendingOcr = true
          · simp only [stepFn, hp, if_true]
            simpa using IH
          · simpa [stepFn, hp] using IH
      | clickAnalyze =>
          by_cases hc : s0.step = .input ∧ s0.ocrResult ≠ none ∧
              s0.isLoading = false
          · simp only [stepFn, if_pos hc]
            simpa using IH
          · simpa [stepFn, if_neg hc] using IH
      | analyzeResponse d =>
          by_cases hp : s0.pendingAnalyze = true
          · simp [stepFn, hp]
          · simpa [stepFn, hp] using IH
      | analyzeNetError msg =>
          by_cases hp : s0.pendingAnalyze = true
          · simp only [stepFn, hp, if_true]
            simpa using IH
          · simpa [stepFn, hp] using IH
      | clickReset =>
          by_cases hc : s0.step = .input ∨ s0.step = .result
          · simp [stepFn, hc]
          · simpa [stepFn, hc] using IH
      | clickReselect =>
          by_cases hc : s0.step = .review
          · simp [stepFn, hc]
          · simpa [stepFn, hc] using IH
      | editWeight v =>
          by_cases hc : s0.step = .review ∧ s0.previewUrl ≠ ""
          · simp only [stepFn, if_pos hc]
            simpa using IH
          · simpa [stepFn, if_neg hc] using IH
      | editVitals vs =>
          by_cases hc : s0.step = .input ∧ s0.ocrResult ≠ none
          · simp only [stepFn, if_pos hc]
            simpa using IH
          · simpa [stepFn, if_neg hc] using IH
      | editAnesthesia an =>
          by_cases hc : s0.step = .input ∧ s0.ocrResult ≠ none
          · simp only [stepFn, if_pos hc]
            simpa using IH
          · simpa [stepFn, if_neg hc] using IH

/-- The supplement (`input`) step is entered only by the delivery of a
success OCR response for an outstanding request — no event skips into it. -/
theorem input_entered_only_by_ocr (s : ClientState) (e : Event)
    (hne : s.step ≠ .input) (h : (stepFn s e).step = .input) :
    (∃ d, e = .ocrSuccess d) ∧ s.pendingOcr = true := by
  cases e with
  | fileSelect f =>
      cases f with
      | some file =>
          by_cases hc : s.step = .upload
          · simp [stepFn, hc] at h
          · simp [stepFn, hc] at h
            exact absurd h hne
      | none =>
          simp [stepFn] at h
          exact absurd h hne
  | clickOcr =>
      have hstep : (stepFn s .clickOcr).step = s.step := by
        simp only [stepFn]
        split <;> rfl
      exact absurd (hstep ▸ h) hne
  | ocrSuccess d =>
      by_cases hp : s.pendingOcr = true
      · exact ⟨⟨d, rfl⟩, hp⟩
      · simp [stepFn, hp] at h
        exact absurd h hne
  | ocrFailure msg =>
      have hstep : (stepFn s (.ocrFailure msg)).step = s.step := by
        simp only [stepFn]
        split <;> rfl
      exact absurd (hstep ▸ h) hne
  | ocrNetError msg =>
      have hstep : (stepFn s (.ocrNetError msg)).step = s.step := by
        simp only [stepFn]
        split <;> rfl
      exact absurd (hstep ▸ h) hne
  | clickAnalyze =>
      have hstep : (stepFn s .clickAnalyze).step = s.step := by
        simp only [stepFn]
        split <;> rfl
      exact absurd (hstep ▸ h) hne
  | analyzeResponse d =>
      by_cases hp : s.pendingAnalyze = true
      · simp [stepFn, hp] at h
      · simp [stepFn, hp] at h
        exact absurd h hne
  | analyzeNetError msg =>
      have hstep : (stepFn s (.analyzeNetError msg)).step = s.step := by
        simp only [stepFn]
        split <;> rfl
      exact absurd (hstep ▸ h) hne
  | clickReset =>
      by_cases hc : s.step = .input ∨ s.step = .result
      · simp [stepFn, hc] at h
      · simp [stepFn, hc] at h
        exact absurd h hne
  | clickReselect =>
      by_cases hc : s.step = .review
      · simp [stepFn, hc] at h
      · simp [stepFn, hc] at h
        exact absurd h hne
  | editWeight v =>
      have hstep : (stepFn s (.editWeight v)).step = s.step := by
        simp only [stepFn]
        split <;> rfl
      exact absurd (hstep ▸ h) hne
  | editVitals vs =>
      have hstep : (stepFn s (.editVitals vs)).step = s.step := by
        simp only [stepFn]
        split <;> rfl
      exact absurd (hstep ▸ h) hne
  | editAnesthesia an =>
      have hstep : (stepFn s (.editAnesthesia an)).step = s.step := by
        simp only [stepFn]
        split <;> rfl
      exact absurd (hstep ▸ h) hne

/-- C5: in every reachable client state, being at the supplement (`input`)
step implies a stored OCR result; and the supplement step is never entered
by skipping a prior stage — the only transition into it is the delivery of
a success OCR response for a request that was started (at review). -/
theorem supplement_requires_ocr (s : ClientState) (hr : Reachable s) :
    (s.step = .input → s.ocrResult ≠ none) ∧
    (∀ e : Event, s.step ≠ .input → (stepFn s e).step = .input →
      (∃ d, e = .ocrSuccess d) ∧ s.pendingOcr = true) :=
  ⟨reachable_input_ocr s hr, fun e hne h => input_entered_only_by_ocr s e hne h⟩

/-- Witness for C5 at a concrete reachable supplement-step state. -/
theorem supplement_requires_ocr_witness : inputState.ocrResult ≠ none :=
  (supplement_requires_ocr inputState
    (.next (.next (.next .init (.fileSelect (some 0))) .clickOcr)
      (.ocrSuccess sampleOcr))).1 (by decide)

/-- Truthiness of an optional numeric field: truthy iff present with a
non-zero value. -/
theorem jsTruthy_iff (x : Option ℚ) :
    jsTruthy x = true ↔ ∃ q, x = some q ∧ q ≠ 0 := by
  cases x <;> simp [jsTruthy]

/-- C9 counterexample: a lactate value of exactly 0 is not displayed — the
truthiness test of App.tsx line 291 conflates it with an absent field —
while the base-excess field (the only one with an explicit null check,
line 274) does treat 0 as present. -/
theorem zero_classified_missing_cex :
    ¬ specZeroIsPresent ∧
    shownBeEcf { sampleOcr with be_ecf := some 0 } = true := by
  refine ⟨?_, by decide⟩
  intro h
  have h2 := (h { sampleOcr with lac := some 0 }).2.2.2.2.2.2.2.2.1 rfl
  exact absurd h2 (by decide)

/-- C9 amended: in the supplement-stage display, only the base-excess
field classifies 0 as present (it is shown iff present); every other
blood-gas field is shown iff present **and non-zero**, so a value of 0 is
conflated with an absent field there; the analysis request, by contrast,
propagates the OCR reading verbatim, zero values included. -/
theorem zero_display_amended (o : OcrData) :
    (shownBeEcf o = true ↔ o.be_ecf ≠ none) ∧
    (shownPh o = true ↔ ∃ q, o.ph = some q ∧ q ≠ 0) ∧
    (shownPo2 o = true ↔ ∃ q, o.po2 = some q ∧ q ≠ 0) ∧
    (shownPco2 o = true ↔ ∃ q, o.pco2 = some q ∧ q ≠ 0) ∧
    (shownNa o = true ↔ ∃ q, o.na = some q ∧ q ≠ 0) ∧
    (shownK o = true ↔ ∃ q, o.k = some q ∧ q ≠ 0) ∧
    (shownCa o = true ↔ ∃ q, o.ca = some q ∧ q ≠ 0) ∧
    (shownHco3Act o = true ↔ ∃ q, o.hco3_act = some q ∧ q ≠ 0) ∧
    (shownLac o = true ↔ ∃ q, o.lac = some q ∧ q ≠ 0) ∧
    (shownThbc o = true ↔ ∃ q, o.thbc = some q ∧ q ≠ 0) ∧
    (∀ (w : String) (vs : VitalSignsForm) (an : AnesthesiaForm),
      (buildRequest o w vs an).blood_gas = o) :=
  ⟨by simp [shownBeEcf], jsTruthy_iff o.ph, jsTruthy_iff o.po2,
   jsTruthy_iff o.pco2, jsTruthy_iff o.na, jsTruthy_iff o.k,
   jsTruthy_iff o.ca, jsTruthy_iff o.hco3_act, jsTruthy_iff o.lac,
   jsTruthy_iff o.thbc, fun w vs an => rfl⟩

end RatEval

end AnesBGA
